import Mathlib

/-!
Verification of the FrenzyFrontIO map generators
(`generate_circle_map.py` and `generate_square_map.py`).

Modelling conventions:
* Python float arithmetic is modelled as exact arithmetic: real numbers for
  the circular generator (whose distance uses `math.sqrt`) and rationals for
  the square generator (whose computations are all rational).
* Python `int()` (truncation toward zero) is `pyIntR` / `pyIntQ`.
* Python `|` and `&` on ints are `Int.lor` / `Int.land`.
* A raster written to a file is modelled as the list of bytes written, each
  byte an integer (the generators only ever produce values in [0, 255]).
-/

/-- Python `int()` applied to a real number: truncation toward zero. -/
noncomputable def pyIntR (q : ℝ) : ℤ := if 0 ≤ q then ⌊q⌋ else ⌈q⌉

/-- Python `int()` applied to a rational number: truncation toward zero. -/
def pyIntQ (q : ℚ) : ℤ := if 0 ≤ q then ⌊q⌋ else ⌈q⌉

/-- LAND_BASE = 0b10000000 (bit 7: is land), shared by both generators. -/
def LAND_BASE : ℤ := 128

/-- OCEAN_BASE = 0b00100000 (bit 5: is ocean), shared by both generators. -/
def OCEAN_BASE : ℤ := 32

/-- Packing a magnitude in [0, 31] onto the land base: the result is
128 + m, its land bit is set, its ocean and shoreline bits are clear, and
the low five bits recover the magnitude. -/
theorem land_pack_props (m : ℤ) (h0 : 0 ≤ m) (h31 : m ≤ 31) :
    Int.lor LAND_BASE m = 128 + m ∧
    Int.land (Int.lor LAND_BASE m) 128 = 128 ∧
    Int.land (Int.lor LAND_BASE m) 32 = 0 ∧
    Int.land (Int.lor LAND_BASE m) 64 = 0 ∧
    Int.land (Int.lor LAND_BASE m) 31 = m := by
  interval_cases m <;> exact ⟨by decide, by decide, by decide, by decide, by decide⟩

/-- Packing a magnitude in [0, 31] onto the ocean base: the result is
32 + m, its ocean bit is set, its land and shoreline bits are clear, and
the low five bits recover the magnitude. -/
theorem ocean_pack_props (m : ℤ) (h0 : 0 ≤ m) (h31 : m ≤ 31) :
    Int.lor OCEAN_BASE m = 32 + m ∧
    Int.land (Int.lor OCEAN_BASE m) 128 = 0 ∧
    Int.land (Int.lor OCEAN_BASE m) 32 = 32 ∧
    Int.land (Int.lor OCEAN_BASE m) 64 = 0 ∧
    Int.land (Int.lor OCEAN_BASE m) 31 = m := by
  interval_cases m <;> exact ⟨by decide, by decide, by decide, by decide, by decide⟩

/-- Truncation of a nonnegative real is its floor, hence nonnegative. -/
theorem pyIntR_nonneg {q : ℝ} (h : 0 ≤ q) : pyIntR q = ⌊q⌋ ∧ 0 ≤ pyIntR q := by
  rw [pyIntR, if_pos h]
  exact ⟨rfl, Int.le_floor.mpr (by exact_mod_cast h)⟩

/-- Truncation of a nonnegative rational is its floor, hence nonnegative. -/
theorem pyIntQ_nonneg {q : ℚ} (h : 0 ≤ q) : pyIntQ q = ⌊q⌋ ∧ 0 ≤ pyIntQ q := by
  rw [pyIntQ, if_pos h]
  exact ⟨rfl, Int.le_floor.mpr (by exact_mod_cast h)⟩

namespace Circle

/-- Euclidean distance of tile (x, y) from the centre (width/2, height/2)
(source: `generate_circle_map.py`, line 36). -/
noncomputable def distance (w h x y : ℕ) : ℝ :=
  Real.sqrt (((x : ℝ) - (w : ℝ) / 2) ^ 2 + ((y : ℝ) - (h : ℝ) / 2) ^ 2)

/-- Land boundary radius: `min(width, height) * 0.44` (source line 19). -/
noncomputable def radius (w h : ℕ) : ℝ := (min w h : ℝ) * 0.44

/-- Land magnitude: `min(31, int((radius - distance) / radius * 20))`
(source line 40). -/
noncomputable def land_magnitude (w h x y : ℕ) : ℤ :=
  min 31 (pyIntR ((radius w h - distance w h x y) / radius w h * 20))

/-- Ocean magnitude: `min(31, int((distance - radius) / 100 * 20))`
(source line 45). -/
noncomputable def ocean_magnitude (w h x y : ℕ) : ℤ :=
  min 31 (pyIntR ((distance w h x y - radius w h) / 100 * 20))

/-- Clamped magnitude computed for a tile, before OR-ing in the flag base. -/
noncomputable def magnitude (w h x y : ℕ) : ℤ :=
  if distance w h x y ≤ radius w h then land_magnitude w h x y
  else ocean_magnitude w h x y

/-- Packed terrain byte of tile (x, y) (source lines 38-46). -/
noncomputable def tileByte (w h x y : ℕ) : ℤ :=
  if distance w h x y ≤ radius w h then Int.lor LAND_BASE (land_magnitude w h x y)
  else Int.lor OCEAN_BASE (ocean_magnitude w h x y)

/-- The byte sequence written to the output file: row-major, y outer, x
inner, no header (source lines 34-50). -/
noncomputable def terrain (w h : ℕ) : List ℤ :=
  (List.range h).flatMap fun y => (List.range w).map fun x => tileByte w h x y

/-- The land count accumulated by the generation loop: one per tile taking
the land branch (source line 42). -/
noncomputable def land_count (w h : ℕ) : ℕ :=
  ((List.range h).map fun y =>
    (List.range w).countP fun x => decide (distance w h x y ≤ radius w h)).sum

/-- Model of `generate_map`: the pair (bytes written to the file, returned
land count) (source lines 15-53). -/
noncomputable def generate_map (w h : ℕ) : List ℤ × ℕ :=
  (terrain w h, land_count w h)

/-- Thumbnail target width: `max(1, int((map_width // 2) * quality))`
(source lines 65-68). -/
def target_width (mw : ℕ) (quality : ℚ) : ℤ :=
  max 1 (pyIntQ ((mw / 2 : ℕ) * quality))

/-- Thumbnail target height: `max(1, int((map_height // 2) * quality))`
(source lines 66-69). -/
def target_height (mh : ℕ) (quality : ℚ) : ℤ :=
  max 1 (pyIntQ ((mh / 2 : ℕ) * quality))

/-- Distance field recomputed at the thumbnail resolution (source line 81). -/
noncomputable def thumb_distance (tw th x y : ℕ) : ℝ :=
  Real.sqrt (((x : ℝ) - (tw : ℝ) / 2) ^ 2 + ((y : ℝ) - (th : ℝ) / 2) ^ 2)

/-- Land radius recomputed at the thumbnail resolution (source line 73). -/
noncomputable def thumb_radius (tw th : ℕ) : ℝ := (min tw th : ℝ) * 0.44

/-- Land magnitude at the thumbnail resolution (source line 86). -/
noncomputable def thumb_land_magnitude (tw th x y : ℕ) : ℤ :=
  min 31 (pyIntR ((thumb_radius tw th - thumb_distance tw th x y) / thumb_radius tw th * 20))

/-- Ocean magnitude at the thumbnail resolution:
`min(10, int((distance - radius) / 20))` (source line 106). -/
noncomputable def thumb_ocean_magnitude (tw th x y : ℕ) : ℤ :=
  min 10 (pyIntR ((thumb_distance tw th x y - thumb_radius tw th) / 20))

/-- RGB color assigned to thumbnail pixel (x, y) (source lines 79-111).
In the plains band the source computes `adj = int(220 - 2 * magnitude)`;
the operand is already an integer, so `int()` is the identity there. -/
noncomputable def thumbColor (tw th x y : ℕ) : ℤ × ℤ × ℤ :=
  if thumb_distance tw th x y ≤ thumb_radius tw th then
    if thumb_distance tw th x y > thumb_radius tw th - 2 then (204, 203, 158)
    else if thumb_land_magnitude tw th x y < 10 then
      (190, 220 - 2 * thumb_land_magnitude tw th x y, 138)
    else
      (180 + 2 * thumb_land_magnitude tw th x y / 4,
       200 - 2 * thumb_land_magnitude tw th x y, 130)
  else
    if thumb_distance tw th x y < thumb_radius tw th + 3 then (100, 143, 255)
    else
      (max 0 (70 + (11 - thumb_ocean_magnitude tw th x y - 10)),
       max 0 (132 + (11 - thumb_ocean_magnitude tw th x y - 10)),
       max 0 (180 + (11 - thumb_ocean_magnitude tw th x y - 10)))

/-- The pixel grid of the thumbnail, row-major (source lines 79-111). -/
noncomputable def thumb_image (tw th : ℕ) : List (ℤ × ℤ × ℤ) :=
  (List.range th).flatMap fun y => (List.range tw).map fun x => thumbColor tw th x y

/-- Model of `generate_thumbnail` (source lines 55-116): `pil` states whether
the optional PIL capability is importable. Returns (returned Bool, image
file written). When PIL is missing the import raises ImportError, the
handler prints a warning and the function returns False with no file. -/
noncomputable def generate_thumbnail (pil : Bool) (mw mh : ℕ) (quality : ℚ) :
    Bool × Option (List (ℤ × ℤ × ℤ)) :=
  if pil then
    (true, some (thumb_image (target_width mw quality).toNat
                             (target_height mh quality).toNat))
  else (false, none)

/-- Everything the circular pipeline writes or computes at module level. -/
structure Outputs where
  mapBin : List ℤ
  map4xBin : List ℤ
  map16xBin : List ℤ
  land_tiles_full : ℕ
  land_tiles_4x : ℕ
  land_tiles_16x : ℕ
  thumbnailReturn : Bool
  thumbnailFile : Option (List (ℤ × ℤ × ℤ))

/-- Model of the module-level pipeline of `generate_circle_map.py`
(source lines 118-134): three rasters, then the thumbnail at default
quality 0.5. -/
noncomputable def pipeline (pil : Bool) : Outputs :=
  let full := generate_map 800 800
  let four := generate_map 400 400
  let sixteen := generate_map 200 200
  let thumb := generate_thumbnail pil 800 800 0.5
  ⟨full.1, four.1, sixteen.1, full.2, four.2, sixteen.2, thumb.1, thumb.2⟩

end Circle

namespace Square

/-- Chebyshev distance of tile (x, y) from the centre (width/2, height/2)
(source: `generate_square_map.py`, lines 44-46). -/
def chebyshev_distance (w h x y : ℕ) : ℚ :=
  max (|(x : ℚ) - (w : ℚ) / 2|) (|(y : ℚ) - (h : ℚ) / 2|)

/-- Land half size: `min(width, height) * 0.40` (source line 22). -/
def land_half_size (w h : ℕ) : ℚ := (min w h : ℚ) * 0.40

/-- Crystal zone size: `min(width, height) * 0.10` (source line 25). -/
def crystal_zone_size (w h : ℕ) : ℚ := (min w h : ℚ) * 0.10

/-- Magnitude of a land tile inside the crystal zone:
`min(31, int((1 - chebyshev/crystal_zone) * 25) + 6)` (source lines 53-54). -/
def crystal_magnitude (w h x y : ℕ) : ℤ :=
  min 31 (pyIntQ ((1 - chebyshev_distance w h x y / crystal_zone_size w h) * 25) + 6)

/-- Ocean magnitude: `min(31, int((chebyshev - land_half_size) / 50 * 20))`
(source lines 62-63). -/
def ocean_magnitude (w h x y : ℕ) : ℤ :=
  min 31 (pyIntQ ((chebyshev_distance w h x y - land_half_size w h) / 50 * 20))

/-- Clamped magnitude computed for a tile, before OR-ing in the flag base.
Land outside the crystal zone has magnitude 0 (source line 57). -/
def magnitude (w h x y : ℕ) : ℤ :=
  if chebyshev_distance w h x y ≤ land_half_size w h then
    if chebyshev_distance w h x y ≤ crystal_zone_size w h then
      crystal_magnitude w h x y
    else 0
  else ocean_magnitude w h x y

/-- Packed terrain byte of tile (x, y) (source lines 48-64). -/
def tileByte (w h x y : ℕ) : ℤ :=
  if chebyshev_distance w h x y ≤ land_half_size w h then
    Int.lor LAND_BASE
      (if chebyshev_distance w h x y ≤ crystal_zone_size w h then
        crystal_magnitude w h x y
      else 0)
  else Int.lor OCEAN_BASE (ocean_magnitude w h x y)

/-- The byte sequence written to the output file: row-major, y outer, x
inner, no header (source lines 40-68). -/
def terrain (w h : ℕ) : List ℤ :=
  (List.range h).flatMap fun y => (List.range w).map fun x => tileByte w h x y

/-- The land count accumulated by the generation loop: one per tile taking
the land branch (source line 59). -/
def land_count (w h : ℕ) : ℕ :=
  ((List.range h).map fun y =>
    (List.range w).countP fun x =>
      decide (chebyshev_distance w h x y ≤ land_half_size w h)).sum

/-- Model of `generate_map`: the pair (bytes written to the file, returned
land count) (source lines 16-71). -/
def generate_map (w h : ℕ) : List ℤ × ℕ :=
  (terrain w h, land_count w h)

/-- One nation entry of the manifest (source lines 93-116). -/
structure Nation where
  coordinates : ℤ × ℤ
  flag : String
  name : String
  strength : ℤ

/-- One per-resolution entry of the manifest (source lines 77-91). -/
structure MapEntry where
  width : ℕ
  height : ℕ
  num_land_tiles : ℕ

/-- The manifest record (source lines 75-118). -/
structure Manifest where
  name : String
  map : MapEntry
  map4x : MapEntry
  map16x : MapEntry
  nations : List Nation

/-- Model of `create_manifest` (source lines 73-119). -/
def create_manifest (land_tiles_full land_tiles_4x land_tiles_16x : ℕ) : Manifest :=
  { name := "Square Map"
    map := ⟨800, 800, land_tiles_full⟩
    map4x := ⟨400, 400, land_tiles_4x⟩
    map16x := ⟨200, 200, land_tiles_16x⟩
    nations := [
      ⟨(400, 100), "", "Northland", 2⟩,
      ⟨(700, 400), "", "Eastland", 2⟩,
      ⟨(400, 700), "", "Southland", 2⟩,
      ⟨(100, 400), "", "Westland", 2⟩] }

/-- Thumbnail target width: `max(1, int((map_width // 2) * quality))`
(source lines 131-134). -/
def target_width (mw : ℕ) (quality : ℚ) : ℤ :=
  max 1 (pyIntQ ((mw / 2 : ℕ) * quality))

/-- Thumbnail target height: `max(1, int((map_height // 2) * quality))`
(source lines 132-135). -/
def target_height (mh : ℕ) (quality : ℚ) : ℤ :=
  max 1 (pyIntQ ((mh / 2 : ℕ) * quality))

/-- Chebyshev distance recomputed at the thumbnail resolution
(source lines 147-149). -/
def thumb_chebyshev (tw th x y : ℕ) : ℚ :=
  max (|(x : ℚ) - (tw : ℚ) / 2|) (|(y : ℚ) - (th : ℚ) / 2|)

/-- Land half size recomputed at the thumbnail resolution (source line 139). -/
def thumb_land_half_size (tw th : ℕ) : ℚ := (min tw th : ℚ) * 0.40

/-- Land magnitude at the thumbnail resolution:
`min(31, int((land_half_size - chebyshev) / land_half_size * 20))`
(source lines 153-154). -/
def thumb_land_magnitude (tw th x y : ℕ) : ℤ :=
  min 31 (pyIntQ ((thumb_land_half_size tw th - thumb_chebyshev tw th x y) /
    thumb_land_half_size tw th * 20))

/-- Ocean magnitude at the thumbnail resolution:
`min(10, int((chebyshev - land_half_size) / 20))` (source line 174). -/
def thumb_ocean_magnitude (tw th x y : ℕ) : ℤ :=
  min 10 (pyIntQ ((thumb_chebyshev tw th x y - thumb_land_half_size tw th) / 20))

/-- RGB color assigned to thumbnail pixel (x, y) (source lines 145-179). -/
def thumbColor (tw th x y : ℕ) : ℤ × ℤ × ℤ :=
  if thumb_chebyshev tw th x y ≤ thumb_land_half_size tw th then
    if thumb_chebyshev tw th x y > thumb_land_half_size tw th - 2 then (204, 203, 158)
    else if thumb_land_magnitude tw th x y < 10 then
      (190, 220 - 2 * thumb_land_magnitude tw th x y, 138)
    else
      (180 + 2 * thumb_land_magnitude tw th x y / 4,
       200 - 2 * thumb_land_magnitude tw th x y, 130)
  else
    if thumb_chebyshev tw th x y < thumb_land_half_size tw th + 3 then (100, 143, 255)
    else
      (max 0 (70 + (11 - thumb_ocean_magnitude tw th x y - 10)),
       max 0 (132 + (11 - thumb_ocean_magnitude tw th x y - 10)),
       max 0 (180 + (11 - thumb_ocean_magnitude tw th x y - 10)))

/-- The pixel grid of the thumbnail, row-major (source lines 145-179). -/
def thumb_image (tw th : ℕ) : List (ℤ × ℤ × ℤ) :=
  (List.range th).flatMap fun y => (List.range tw).map fun x => thumbColor tw th x y

/-- Model of `generate_thumbnail` (source lines 121-184): `pil` states
whether the optional PIL capability is importable. Returns (returned Bool,
image file written). When PIL is missing the import raises ImportError, the
handler prints a warning and the function returns False with no file. -/
def generate_thumbnail (pil : Bool) (mw mh : ℕ) (quality : ℚ) :
    Bool × Option (List (ℤ × ℤ × ℤ)) :=
  if pil then
    (true, some (thumb_image (target_width mw quality).toNat
                             (target_height mh quality).toNat))
  else (false, none)

/-- Everything the square pipeline writes or computes at module level. -/
structure Outputs where
  mapBin : List ℤ
  map4xBin : List ℤ
  map16xBin : List ℤ
  land_tiles_full : ℕ
  land_tiles_4x : ℕ
  land_tiles_16x : ℕ
  manifest : Manifest
  thumbnailReturn : Bool
  thumbnailFile : Option (List (ℤ × ℤ × ℤ))

/-- Model of the module-level pipeline of `generate_square_map.py`
(source lines 186-207): three rasters, the manifest built from their land
counts, then the thumbnail at default quality 0.5. -/
def pipeline (pil : Bool) : Outputs :=
  let full := generate_map 800 800
  let four := generate_map 400 400
  let sixteen := generate_map 200 200
  let manifest := create_manifest full.2 four.2 sixteen.2
  let thumb := generate_thumbnail pil 800 800 0.5
  ⟨full.1, four.1, sixteen.1, full.2, four.2, sixteen.2, manifest, thumb.1, thumb.2⟩

end Square

namespace Circle

theorem distance_nonneg (w h x y : ℕ) : 0 ≤ distance w h x y :=
  Real.sqrt_nonneg _

theorem radius_pos {w h : ℕ} (hw : 0 < w) (hh : 0 < h) : 0 < radius w h := by
  have hmin : (0 : ℝ) < (min w h : ℝ) := by exact_mod_cast lt_min hw hh
  exact mul_pos hmin (by norm_num)

/-- On the land branch the truncated magnitude lies in [0, 20]. -/
theorem land_trunc_bounds (w h x y : ℕ) (hw : 0 < w) (hh : 0 < h)
    (hd : distance w h x y ≤ radius w h) :
    0 ≤ pyIntR ((radius w h - distance w h x y) / radius w h * 20) ∧
    pyIntR ((radius w h - distance w h x y) / radius w h * 20) ≤ 20 := by
  have hr := radius_pos hw hh
  have hv0 : 0 ≤ (radius w h - distance w h x y) / radius w h * 20 :=
    mul_nonneg (div_nonneg (by linarith) hr.le) (by norm_num)
  have hv20 : (radius w h - distance w h x y) / radius w h * 20 ≤ 20 := by
    have h1 : (radius w h - distance w h x y) / radius w h ≤ 1 :=
      (div_le_one hr).mpr (by linarith [distance_nonneg w h x y])
    nlinarith
  obtain ⟨heq, hnn⟩ := pyIntR_nonneg hv0
  refine ⟨hnn, ?_⟩
  rw [heq]
  have := Int.floor_le_floor (α := ℝ) hv20
  simpa using this

/-- On the ocean branch the truncated magnitude is nonnegative. -/
theorem ocean_trunc_nonneg (w h x y : ℕ)
    (hd : radius w h ≤ distance w h x y) :
    0 ≤ pyIntR ((distance w h x y - radius w h) / 100 * 20) := by
  have hv0 : 0 ≤ (distance w h x y - radius w h) / 100 * 20 :=
    mul_nonneg (div_nonneg (by linarith) (by norm_num)) (by norm_num)
  exact (pyIntR_nonneg hv0).2

/-- The clamped magnitude of any raster tile lies in [0, 31]. -/
theorem magnitude_bounds (w h x y : ℕ) (hw : 0 < w) (hh : 0 < h) :
    0 ≤ magnitude w h x y ∧ magnitude w h x y ≤ 31 := by
  unfold magnitude land_magnitude ocean_magnitude
  split
  · rename_i hd
    exact ⟨le_min (by norm_num) (land_trunc_bounds w h x y hw hh hd).1,
      min_le_left _ _⟩
  · rename_i hd
    exact ⟨le_min (by norm_num) (ocean_trunc_nonneg w h x y (le_of_not_le hd)),
      min_le_left _ _⟩

end Circle

namespace Square

theorem chebyshev_nonneg (w h x y : ℕ) : 0 ≤ chebyshev_distance w h x y :=
  le_max_of_le_left (abs_nonneg _)

theorem crystal_zone_size_pos {w h : ℕ} (hw : 0 < w) (hh : 0 < h) :
    0 < crystal_zone_size w h := by
  have hmin : (0 : ℚ) < (min w h : ℚ) := by exact_mod_cast lt_min hw hh
  exact mul_pos hmin (by norm_num)

/-- Inside the crystal zone the crystal magnitude lies in [6, 31] before
clamping never pushes it below 6, so the clamped value is in [0, 31]. -/
theorem crystal_magnitude_bounds (w h x y : ℕ) (hw : 0 < w) (hh : 0 < h)
    (hc : chebyshev_distance w h x y ≤ crystal_zone_size w h) :
    6 ≤ crystal_magnitude w h x y ∧ crystal_magnitude w h x y ≤ 31 := by
  have hz := crystal_zone_size_pos hw hh
  have hv0 : 0 ≤ (1 - chebyshev_distance w h x y / crystal_zone_size w h) * 25 := by
    have h1 : chebyshev_distance w h x y / crystal_zone_size w h ≤ 1 :=
      (div_le_one hz).mpr hc
    nlinarith
  obtain ⟨heq, hnn⟩ := pyIntQ_nonneg hv0
  unfold crystal_magnitude
  constructor
  · exact le_min (by norm_num) (by omega)
  · exact min_le_left _ _

/-- On the ocean branch the truncated magnitude is nonnegative. -/
theorem sq_ocean_trunc_nonneg (w h x y : ℕ)
    (hd : land_half_size w h ≤ chebyshev_distance w h x y) :
    0 ≤ pyIntQ ((chebyshev_distance w h x y - land_half_size w h) / 50 * 20) := by
  have hv0 : 0 ≤ (chebyshev_distance w h x y - land_half_size w h) / 50 * 20 :=
    mul_nonneg (div_nonneg (by linarith) (by norm_num)) (by norm_num)
  exact (pyIntQ_nonneg hv0).2

/-- The clamped magnitude of any raster tile lies in [0, 31]. -/
theorem sq_magnitude_bounds (w h x y : ℕ) (hw : 0 < w) (hh : 0 < h) :
    0 ≤ magnitude w h x y ∧ magnitude w h x y ≤ 31 := by
  unfold magnitude
  split
  · rename_i hland
    split
    · rename_i hc
      obtain ⟨h6, h31⟩ := crystal_magnitude_bounds w h x y hw hh hc
      exact ⟨by omega, h31⟩
    · exact ⟨le_refl 0, by norm_num⟩
  · rename_i hland
    unfold ocean_magnitude
    exact ⟨le_min (by norm_num) (sq_ocean_trunc_nonneg w h x y (le_of_not_le hland)),
      min_le_left _ _⟩

end Square

/-- Length of a row-major raster built with y outer and x inner. -/
theorem raster_length (f : ℕ → ℕ → ℤ) (w h : ℕ) :
    ((List.range h).flatMap fun y => (List.range w).map fun x => f x y).length = h * w := by
  rw [List.length_flatMap]
  simp [Function.comp_def, List.map_const', List.sum_replicate, smul_eq_mul]

/-- In a row-major raster the entry at index y * w + x is the tile (x, y). -/
theorem raster_getElem (f : ℕ → ℕ → ℤ) (w h x y : ℕ) (hx : x < w) (hy : y < h) :
    ((List.range h).flatMap fun y => (List.range w).map fun x => f x y)[y * w + x]? =
      some (f x y) := by
  induction h with
  | zero => omega
  | succ n ih =>
    rw [List.range_succ, List.flatMap_append]
    rcases Nat.lt_or_ge y n with hyn | hyn
    · rw [List.getElem?_append_left, ih hyn]
      rw [raster_length]
      calc y * w + x < y * w + w := by omega
        _ = (y + 1) * w := by ring
        _ ≤ n * w := Nat.mul_le_mul_right w (by omega)
    · have hyeq : y = n := by omega
      subst hyeq
      rw [List.getElem?_append_right
        (by rw [raster_length]; exact Nat.le_add_right _ _)]
      rw [raster_length, Nat.add_sub_cancel_left]
      simp only [List.flatMap_cons, List.flatMap_nil, List.append_nil]
      rw [List.getElem?_map, List.getElem?_range hx, Option.map_some']

/-- C4: for every (width, height), the byte sequence generate_map writes to
its output file (modelled as the list of written bytes: the source writes
`bytes(terrain)` with no header, length prefix, or dimension metadata) is
exactly width * height bytes long and is in row-major order with y outer and
x inner: the byte at index y * width + x is the packed terrain byte of tile
(x, y), for both topologies. -/
theorem raster_layout (w h x y : ℕ) (hx : x < w) (hy : y < h) :
    (Circle.terrain w h).length = w * h ∧
    (Square.terrain w h).length = w * h ∧
    (Circle.terrain w h)[y * w + x]? = some (Circle.tileByte w h x y) ∧
    (Square.terrain w h)[y * w + x]? = some (Square.tileByte w h x y) :=
  ⟨by rw [Circle.terrain, raster_length, Nat.mul_comm],
   by rw [Square.terrain, raster_length, Nat.mul_comm],
   raster_getElem _ w h x y hx hy,
   raster_getElem _ w h x y hx hy⟩

/-- Witness for C4 at the concrete raster 2 x 2, tile (1, 0). -/
theorem raster_layout_witness :
    (Circle.terrain 2 2).length = 2 * 2 ∧
    (Square.terrain 2 2).length = 2 * 2 ∧
    (Circle.terrain 2 2)[0 * 2 + 1]? = some (Circle.tileByte 2 2 1 0) ∧
    (Square.terrain 2 2)[0 * 2 + 1]? = some (Square.tileByte 2 2 1 0) :=
  raster_layout 2 2 1 0 (by norm_num) (by norm_num)

/-- Flag bits of a circular terrain byte, together with the recovery of the
clamped magnitude from the low five bits. -/
theorem Circle.tileByte_bits (w h x y : ℕ) (hw : 0 < w) (hh : 0 < h) :
    (Int.land (tileByte w h x y) 128 = 0 ∨ Int.land (tileByte w h x y) 32 = 0) ∧
    Int.land (tileByte w h x y) 64 = 0 ∧
    Int.land (tileByte w h x y) 31 = magnitude w h x y := by
  by_cases hd : distance w h x y ≤ radius w h
  · simp only [tileByte, magnitude, if_pos hd]
    have h0 : 0 ≤ land_magnitude w h x y :=
      le_min (by norm_num) (land_trunc_bounds w h x y hw hh hd).1
    obtain ⟨-, -, hocean, hshore, hmag⟩ :=
      land_pack_props _ h0 (min_le_left _ _)
    exact ⟨Or.inr hocean, hshore, hmag⟩
  · simp only [tileByte, magnitude, if_neg hd]
    have h0 : 0 ≤ ocean_magnitude w h x y :=
      le_min (by norm_num) (ocean_trunc_nonneg w h x y (le_of_not_le hd))
    obtain ⟨-, hland, -, hshore, hmag⟩ :=
      ocean_pack_props _ h0 (min_le_left _ _)
    exact ⟨Or.inl hland, hshore, hmag⟩

/-- Flag bits of a square terrain byte, together with the recovery of the
clamped magnitude from the low five bits. -/
theorem Square.sq_tileByte_bits (w h x y : ℕ) (hw : 0 < w) (hh : 0 < h) :
    (Int.land (tileByte w h x y) 128 = 0 ∨ Int.land (tileByte w h x y) 32 = 0) ∧
    Int.land (tileByte w h x y) 64 = 0 ∧
    Int.land (tileByte w h x y) 31 = magnitude w h x y := by
  by_cases hland : chebyshev_distance w h x y ≤ land_half_size w h
  · simp only [tileByte, magnitude, if_pos hland]
    have h0 : 0 ≤ if chebyshev_distance w h x y ≤ crystal_zone_size w h then
        crystal_magnitude w h x y else 0 := by
      split
      · rename_i hc
        have := (crystal_magnitude_bounds w h x y hw hh hc).1
        omega
      · exact le_refl 0
    have h31 : (if chebyshev_distance w h x y ≤ crystal_zone_size w h then
        crystal_magnitude w h x y else 0) ≤ 31 := by
      split
      · rename_i hc
        exact (crystal_magnitude_bounds w h x y hw hh hc).2
      · norm_num
    obtain ⟨-, -, hocean, hshore, hmag⟩ := land_pack_props _ h0 h31
    exact ⟨Or.inr hocean, hshore, hmag⟩
  · simp only [tileByte, magnitude, if_neg hland]
    have h0 : 0 ≤ ocean_magnitude w h x y :=
      le_min (by norm_num) (sq_ocean_trunc_nonneg w h x y (le_of_not_le hland))
    obtain ⟨-, hlandbit, -, hshore, hmag⟩ :=
      ocean_pack_props _ h0 (min_le_left _ _)
    exact ⟨Or.inl hlandbit, hshore, hmag⟩

/-- C1: for every tile of every raster produced by either topology's
generate_map (x < width, y < height), the packed terrain byte never has the
land bit 0x80 and the ocean bit 0x20 both set, its shoreline bit 0x40 is 0,
and its magnitude field (byte AND 0x1F) lies in [0, 31] and equals exactly
the clamped magnitude computed for that tile before OR-ing in the flag
base. -/
theorem terrain_byte_invariant (w h x y : ℕ) (hx : x < w) (hy : y < h) :
    (Int.land (Circle.tileByte w h x y) 128 = 0 ∨
      Int.land (Circle.tileByte w h x y) 32 = 0) ∧
    Int.land (Circle.tileByte w h x y) 64 = 0 ∧
    0 ≤ Int.land (Circle.tileByte w h x y) 31 ∧
    Int.land (Circle.tileByte w h x y) 31 ≤ 31 ∧
    Int.land (Circle.tileByte w h x y) 31 = Circle.magnitude w h x y ∧
    (Int.land (Square.tileByte w h x y) 128 = 0 ∨
      Int.land (Square.tileByte w h x y) 32 = 0) ∧
    Int.land (Square.tileByte w h x y) 64 = 0 ∧
    0 ≤ Int.land (Square.tileByte w h x y) 31 ∧
    Int.land (Square.tileByte w h x y) 31 ≤ 31 ∧
    Int.land (Square.tileByte w h x y) 31 = Square.magnitude w h x y := by
  have hw : 0 < w := lt_of_le_of_lt (Nat.zero_le x) hx
  have hh : 0 < h := lt_of_le_of_lt (Nat.zero_le y) hy
  obtain ⟨cexc, cshore, cmag⟩ := Circle.tileByte_bits w h x y hw hh
  obtain ⟨sexc, sshore, smag⟩ := Square.sq_tileByte_bits w h x y hw hh
  obtain ⟨clo, chi⟩ := Circle.magnitude_bounds w h x y hw hh
  obtain ⟨slo, shi⟩ := Square.sq_magnitude_bounds w h x y hw hh
  exact ⟨cexc, cshore, by rw [cmag]; exact clo, by rw [cmag]; exact chi, cmag,
    sexc, sshore, by rw [smag]; exact slo, by rw [smag]; exact shi, smag⟩

/-- Witness for C1 at the concrete raster 1 x 1, tile (0, 0). -/
theorem terrain_byte_invariant_witness :
    (Int.land (Circle.tileByte 1 1 0 0) 128 = 0 ∨
      Int.land (Circle.tileByte 1 1 0 0) 32 = 0) ∧
    Int.land (Circle.tileByte 1 1 0 0) 64 = 0 ∧
    0 ≤ Int.land (Circle.tileByte 1 1 0 0) 31 ∧
    Int.land (Circle.tileByte 1 1 0 0) 31 ≤ 31 ∧
    Int.land (Circle.tileByte 1 1 0 0) 31 = Circle.magnitude 1 1 0 0 ∧
    (Int.land (Square.tileByte 1 1 0 0) 128 = 0 ∨
      Int.land (Square.tileByte 1 1 0 0) 32 = 0) ∧
    Int.land (Square.tileByte 1 1 0 0) 64 = 0 ∧
    0 ≤ Int.land (Square.tileByte 1 1 0 0) 31 ∧
    Int.land (Square.tileByte 1 1 0 0) 31 ≤ 31 ∧
    Int.land (Square.tileByte 1 1 0 0) 31 = Square.magnitude 1 1 0 0 :=
  terrain_byte_invariant 1 1 0 0 (by norm_num) (by norm_num)

/-- C6: generate_map is deterministic: for both topologies, two invocations
with the same (width, height) arguments compute the identical terrain byte
sequence and the identical land count. The embedding is a pure function of
its arguments because the source reads no external state (no randomness, no
time, no input). -/
theorem generate_map_deterministic (w h w' h' : ℕ) (hw : w = w') (hh : h = h') :
    Circle.generate_map w h = Circle.generate_map w' h' ∧
    Square.generate_map w h = Square.generate_map w' h' := by
  subst hw; subst hh; exact ⟨rfl, rfl⟩

/-- Witness for C6 at the production size 800 x 800. -/
theorem generate_map_deterministic_witness :
    Circle.generate_map 800 800 = Circle.generate_map 800 800 ∧
    Square.generate_map 800 800 = Square.generate_map 800 800 :=
  generate_map_deterministic 800 800 800 800 rfl rfl

/-- C7: when the image-encoding capability (PIL) is unavailable,
generate_thumbnail returns False instead of raising and writes no image,
and the pipeline's three raster files, land counts (and, for the square
topology, the manifest) are identical to those produced when PIL is
available: thumbnail absence never alters or prevents any other output. -/
theorem thumbnail_graceful_degradation :
    (∀ mw mh : ℕ, ∀ q : ℚ, Circle.generate_thumbnail false mw mh q = (false, none)) ∧
    (∀ mw mh : ℕ, ∀ q : ℚ, Square.generate_thumbnail false mw mh q = (false, none)) ∧
    (∀ pil : Bool,
      (Circle.pipeline pil).mapBin = (Circle.pipeline true).mapBin ∧
      (Circle.pipeline pil).map4xBin = (Circle.pipeline true).map4xBin ∧
      (Circle.pipeline pil).map16xBin = (Circle.pipeline true).map16xBin ∧
      (Circle.pipeline pil).land_tiles_full = (Circle.pipeline true).land_tiles_full ∧
      (Circle.pipeline pil).land_tiles_4x = (Circle.pipeline true).land_tiles_4x ∧
      (Circle.pipeline pil).land_tiles_16x = (Circle.pipeline true).land_tiles_16x) ∧
    (∀ pil : Bool,
      (Square.pipeline pil).mapBin = (Square.pipeline true).mapBin ∧
      (Square.pipeline pil).map4xBin = (Square.pipeline true).map4xBin ∧
      (Square.pipeline pil).map16xBin = (Square.pipeline true).map16xBin ∧
      (Square.pipeline pil).land_tiles_full = (Square.pipeline true).land_tiles_full ∧
      (Square.pipeline pil).land_tiles_4x = (Square.pipeline true).land_tiles_4x ∧
      (Square.pipeline pil).land_tiles_16x = (Square.pipeline true).land_tiles_16x ∧
      (Square.pipeline pil).manifest = (Square.pipeline true).manifest) ∧
    (Circle.pipeline false).thumbnailReturn = false ∧
    (Circle.pipeline false).thumbnailFile = none ∧
    (Square.pipeline false).thumbnailReturn = false ∧
    (Square.pipeline false).thumbnailFile = none :=
  ⟨fun _ _ _ => rfl, fun _ _ _ => rfl,
   fun _ => ⟨rfl, rfl, rfl, rfl, rfl, rfl⟩,
   fun _ => ⟨rfl, rfl, rfl, rfl, rfl, rfl, rfl⟩,
   rfl, rfl, rfl, rfl⟩

theorem Circle.radius_4_4 : Circle.radius 4 4 = 1.76 := by
  rw [Circle.radius]; norm_num

theorem Circle.distance_4_4_2_2 : Circle.distance 4 4 2 2 = 0 := by
  rw [Circle.distance]; norm_num

theorem Circle.distance_4_4_0_0 : Circle.distance 4 4 0 0 = Real.sqrt 8 := by
  rw [Circle.distance]; norm_num

theorem sqrt_eight_gt : (1.76 : ℝ) < Real.sqrt 8 :=
  (Real.lt_sqrt (by norm_num) (y := 8)).mpr (by norm_num)

theorem sqrt_eight_lt : Real.sqrt 8 < 6.76 :=
  (Real.sqrt_lt' (by norm_num) (x := 8)).mpr (by norm_num)

/-- C2: for the circular topology with center (width/2, height/2) and
radius = min(width, height) * 0.44, every tile with distance <= radius
(boundary inclusive) is packed as land with byte
0x80 | min(31, int((radius - d) / radius * 20)), and every tile with
d > radius is packed as ocean with byte 0x20 | min(31, int((d - radius) /
100 * 20)), where int truncates toward zero (pyIntR); in particular for
width = height = 4 the tile (2,2) packs to 148 and the tile (0,0) packs
to 32. -/
theorem circle_pack_characterization :
    (∀ w h x y : ℕ, Circle.distance w h x y ≤ Circle.radius w h →
      Circle.tileByte w h x y = Int.lor LAND_BASE
        (min 31 (pyIntR ((Circle.radius w h - Circle.distance w h x y) /
          Circle.radius w h * 20)))) ∧
    (∀ w h x y : ℕ, Circle.radius w h < Circle.distance w h x y →
      Circle.tileByte w h x y = Int.lor OCEAN_BASE
        (min 31 (pyIntR ((Circle.distance w h x y - Circle.radius w h) /
          100 * 20)))) ∧
    Circle.tileByte 4 4 2 2 = 148 ∧
    Circle.tileByte 4 4 0 0 = 32 := by
  refine ⟨?_, ?_, ?_, ?_⟩
  · intro w h x y hd
    simp only [Circle.tileByte, Circle.land_magnitude, if_pos hd]
  · intro w h x y hd
    simp only [Circle.tileByte, Circle.ocean_magnitude, if_neg (not_le.mpr hd)]
  · simp only [Circle.tileByte, Circle.land_magnitude,
      Circle.distance_4_4_2_2, Circle.radius_4_4]
    rw [if_pos (by norm_num : (0:ℝ) ≤ 1.76)]
    have h : ((1.76 : ℝ) - 0) / 1.76 * 20 = 20 := by norm_num
    rw [h, pyIntR, if_pos (by norm_num : (0:ℝ) ≤ 20)]
    have h20 : ⌊(20 : ℝ)⌋ = 20 := by norm_num
    rw [h20]
    decide
  · simp only [Circle.tileByte, Circle.ocean_magnitude,
      Circle.distance_4_4_0_0, Circle.radius_4_4]
    rw [if_neg (not_le.mpr sqrt_eight_gt)]
    have hv0 : (0:ℝ) ≤ (Real.sqrt 8 - 1.76) / 100 * 20 := by
      nlinarith [sqrt_eight_gt]
    have hfl : pyIntR ((Real.sqrt 8 - 1.76) / 100 * 20) = 0 := by
      rw [pyIntR, if_pos hv0, Int.floor_eq_zero_iff]
      refine ⟨hv0, ?_⟩
      show (Real.sqrt 8 - 1.76) / 100 * 20 < 1
      nlinarith [sqrt_eight_lt]
    rw [hfl]
    decide

/-- C10: for the circular topology with positive width and height, every
land tile's truncated magnitude int((radius - distance) / radius * 20) lies
in [0, 20], so the min(31, .) clamp on the land path never binds, and every
circular land byte lies in [128, 148]: the land magnitude values 21-31
never occur in circular raster output. -/
theorem circle_land_magnitude_band (w h x y : ℕ) (hw : 0 < w) (hh : 0 < h)
    (hd : Circle.distance w h x y ≤ Circle.radius w h) :
    0 ≤ pyIntR ((Circle.radius w h - Circle.distance w h x y) /
      Circle.radius w h * 20) ∧
    pyIntR ((Circle.radius w h - Circle.distance w h x y) /
      Circle.radius w h * 20) ≤ 20 ∧
    Circle.land_magnitude w h x y =
      pyIntR ((Circle.radius w h - Circle.distance w h x y) /
        Circle.radius w h * 20) ∧
    128 ≤ Circle.tileByte w h x y ∧ Circle.tileByte w h x y ≤ 148 := by
  obtain ⟨h0, h20⟩ := Circle.land_trunc_bounds w h x y hw hh hd
  have hmin : Circle.land_magnitude w h x y =
      pyIntR ((Circle.radius w h - Circle.distance w h x y) /
        Circle.radius w h * 20) :=
    min_eq_right (by omega)
  have hbyte : Circle.tileByte w h x y = 128 + Circle.land_magnitude w h x y := by
    simp only [Circle.tileByte, if_pos hd]
    exact (land_pack_props _ (le_min (by norm_num) h0) (min_le_left _ _)).1
  refine ⟨h0, h20, hmin, ?_, ?_⟩ <;> rw [hbyte, hmin] <;> omega

/-- Witness for C10 at the concrete raster 4 x 4, land tile (2, 2). -/
theorem circle_land_magnitude_band_witness :
    128 ≤ Circle.tileByte 4 4 2 2 ∧ Circle.tileByte 4 4 2 2 ≤ 148 := by
  have hd : Circle.distance 4 4 2 2 ≤ Circle.radius 4 4 := by
    rw [Circle.distance_4_4_2_2, Circle.radius_4_4]; norm_num
  have hband := circle_land_magnitude_band 4 4 2 2 (by norm_num) (by norm_num) hd
  exact ⟨hband.2.2.2.1, hband.2.2.2.2⟩

theorem Square.cheb_10_10_5_5 : Square.chebyshev_distance 10 10 5 5 = 0 := by
  rw [Square.chebyshev_distance]; norm_num

theorem Square.cheb_10_10_5_7 : Square.chebyshev_distance 10 10 5 7 = 2 := by
  rw [Square.chebyshev_distance]; norm_num

theorem Square.czs_10_10 : Square.crystal_zone_size 10 10 = 1 := by
  rw [Square.crystal_zone_size]; norm_num

theorem Square.lhs_10_10 : Square.land_half_size 10 10 = 4 := by
  rw [Square.land_half_size]; norm_num

/-- The crystal zone lies inside the land zone: its threshold is smaller. -/
theorem Square.czs_le_lhs (w h : ℕ) :
    Square.crystal_zone_size w h ≤ Square.land_half_size w h := by
  rw [Square.crystal_zone_size, Square.land_half_size]
  have : (0 : ℚ) ≤ (min w h : ℚ) := by positivity
  nlinarith

/-- C3: for the square topology with center (width/2, height/2),
land_half_size = min(width, height) * 0.40 and crystal_zone_size =
min(width, height) * 0.10, every tile whose Chebyshev distance c satisfies
c <= crystal_zone_size is packed as land with magnitude
min(31, int((1 - c / crystal_zone_size) * 25) + 6), which lies in [6, 31];
every tile with crystal_zone_size < c <= land_half_size is packed as land
with magnitude exactly 0 (byte 128); and every tile with c > land_half_size
is packed as ocean with byte 0x20 | min(31, int((c - land_half_size) / 50 *
20)); in particular, for width = height = 10 the tile (5,5) packs to 159
and the tile (5,7) packs to 128. -/
theorem square_pack_characterization :
    (∀ w h x y : ℕ, 0 < w → 0 < h →
      Square.chebyshev_distance w h x y ≤ Square.crystal_zone_size w h →
      Square.tileByte w h x y = Int.lor LAND_BASE (Square.crystal_magnitude w h x y) ∧
      6 ≤ Square.crystal_magnitude w h x y ∧ Square.crystal_magnitude w h x y ≤ 31) ∧
    (∀ w h x y : ℕ,
      Square.crystal_zone_size w h < Square.chebyshev_distance w h x y →
      Square.chebyshev_distance w h x y ≤ Square.land_half_size w h →
      Square.tileByte w h x y = Int.lor LAND_BASE 0 ∧ Int.lor LAND_BASE (0 : ℤ) = 128) ∧
    (∀ w h x y : ℕ, Square.land_half_size w h < Square.chebyshev_distance w h x y →
      Square.tileByte w h x y = Int.lor OCEAN_BASE
        (min 31 (pyIntQ ((Square.chebyshev_distance w h x y -
          Square.land_half_size w h) / 50 * 20)))) ∧
    Square.tileByte 10 10 5 5 = 159 ∧
    Square.tileByte 10 10 5 7 = 128 := by
  refine ⟨?_, ?_, ?_, ?_, ?_⟩
  · intro w h x y hw hh hc
    have hland : Square.chebyshev_distance w h x y ≤ Square.land_half_size w h :=
      le_trans hc (Square.czs_le_lhs w h)
    simp only [Square.tileByte, if_pos hland, if_pos hc]
    exact ⟨trivial, Square.crystal_magnitude_bounds w h x y hw hh hc⟩
  · intro w h x y hc hland
    simp only [Square.tileByte, if_pos hland, if_neg (not_le.mpr hc)]
    exact ⟨trivial, by decide⟩
  · intro w h x y hland
    simp only [Square.tileByte, Square.ocean_magnitude, if_neg (not_le.mpr hland)]
  · simp only [Square.tileByte, Square.crystal_magnitude,
      Square.cheb_10_10_5_5, Square.czs_10_10, Square.lhs_10_10]
    rw [if_pos (by norm_num : (0:ℚ) ≤ 4), if_pos (by norm_num : (0:ℚ) ≤ 1)]
    have h : (1 - (0:ℚ) / 1) * 25 = 25 := by norm_num
    rw [h, pyIntQ, if_pos (by norm_num : (0:ℚ) ≤ 25)]
    have h25 : ⌊(25 : ℚ)⌋ = 25 := by norm_num
    rw [h25]
    decide
  · simp only [Square.tileByte,
      Square.cheb_10_10_5_7, Square.czs_10_10, Square.lhs_10_10]
    rw [if_pos (by norm_num : (2:ℚ) ≤ 4), if_neg (by norm_num : ¬(2:ℚ) ≤ 1)]
    decide

/-- A square terrain byte has its land bit set exactly when the tile took
the land branch of the generation loop. -/
theorem Square.landbit_iff (w h x y : ℕ) (hw : 0 < w) (hh : 0 < h) :
    Int.land (tileByte w h x y) 128 = 128 ↔
    chebyshev_distance w h x y ≤ land_half_size w h := by
  by_cases hland : chebyshev_distance w h x y ≤ land_half_size w h
  · simp only [tileByte, if_pos hland]
    have h0 : 0 ≤ if chebyshev_distance w h x y ≤ crystal_zone_size w h then
        crystal_magnitude w h x y else 0 := by
      split
      · rename_i hc
        have := (crystal_magnitude_bounds w h x y hw hh hc).1
        omega
      · exact le_refl 0
    have h31 : (if chebyshev_distance w h x y ≤ crystal_zone_size w h then
        crystal_magnitude w h x y else 0) ≤ 31 := by
      split
      · rename_i hc
        exact (crystal_magnitude_bounds w h x y hw hh hc).2
      · norm_num
    rw [(land_pack_props _ h0 h31).2.1]
    simp [hland]
  · simp only [tileByte, if_neg hland]
    have h0 : 0 ≤ ocean_magnitude w h x y :=
      le_min (by norm_num) (sq_ocean_trunc_nonneg w h x y (le_of_not_le hland))
    rw [(ocean_pack_props _ h0 (min_le_left _ _)).2.1]
    simp [hland]

/-- The land count the square generation loop returns equals the number of
bytes in the written raster whose land bit is set. -/
theorem Square.land_count_eq_countP (w h : ℕ) :
    Square.land_count w h =
      (Square.terrain w h).countP fun b => decide (Int.land b 128 = 128) := by
  rw [Square.terrain, List.countP_flatMap, Square.land_count]
  apply congrArg
  apply List.map_congr_left
  intro y hy
  rw [List.mem_range] at hy
  simp only [Function.comp_def]
  rw [List.countP_map]
  apply List.countP_congr
  intro x hx
  rw [List.mem_range] at hx
  have hw : 0 < w := lt_of_le_of_lt (Nat.zero_le x) hx
  have hh : 0 < h := lt_of_le_of_lt (Nat.zero_le y) hy
  simp only [Function.comp_def, decide_eq_true_eq]
  exact (Square.landbit_iff w h x y hw hh).symm

/-- C5: for the square topology, the manifest records 800x800 for "map",
400x400 for "map4x" and 200x200 for "map16x", and each resolution's
num_land_tiles equals exactly the land count returned by that resolution's
generate_map invocation, which in turn equals the number of land bytes in
the written raster; the nations list is exactly the four fixed entries at
[400,100], [700,400], [400,700], [100,400], each with strength 2. -/
theorem manifest_matches_rasters :
    (∀ pil : Bool,
      (Square.pipeline pil).manifest.map = ⟨800, 800, (Square.generate_map 800 800).2⟩ ∧
      (Square.pipeline pil).manifest.map4x = ⟨400, 400, (Square.generate_map 400 400).2⟩ ∧
      (Square.pipeline pil).manifest.map16x = ⟨200, 200, (Square.generate_map 200 200).2⟩ ∧
      (Square.pipeline pil).manifest.nations =
        [⟨(400, 100), "", "Northland", 2⟩, ⟨(700, 400), "", "Eastland", 2⟩,
         ⟨(400, 700), "", "Southland", 2⟩, ⟨(100, 400), "", "Westland", 2⟩]) ∧
    (∀ w h : ℕ, (Square.generate_map w h).2 =
      (Square.generate_map w h).1.countP fun b => decide (Int.land b 128 = 128)) :=
  ⟨fun _ => ⟨rfl, rfl, rfl, rfl⟩, fun w h => Square.land_count_eq_countP w h⟩

/-- Counterexample to C8: at the default quality 0.5 an 800x800 map's
thumbnail target dimensions are 200x200 (one quarter of the full resolution
per axis), not the claimed floor(quarter-resolution * quality) = 100x100
reading of "1/8 of full resolution": the source's quarter-resolution is
map dimension // 2 = 400, and 400 * 0.5 = 200. -/
theorem thumbnail_dims_not_eighth :
    Circle.target_width 800 0.5 = 200 ∧ Circle.target_height 800 0.5 = 200 ∧
    Square.target_width 800 0.5 = 200 ∧ Square.target_height 800 0.5 = 200 ∧
    ¬(Circle.target_width 800 0.5 = 100 ∧ Circle.target_height 800 0.5 = 100) := by
  refine ⟨?_, ?_, ?_, ?_, ?_⟩
  · norm_num [Circle.target_width, pyIntQ]
  · norm_num [Circle.target_height, pyIntQ]
  · norm_num [Square.target_width, pyIntQ]
  · norm_num [Square.target_height, pyIntQ]
  · intro hcontra
    have h200 : Circle.target_width 800 0.5 = 200 := by
      norm_num [Circle.target_width, pyIntQ]
    rw [h200] at hcontra
    exact absurd hcontra.1 (by norm_num)

/-- C8 (amended): for both topologies, the thumbnail is computed at
dimensions floor((map dimension // 2) * quality) on each axis with a
minimum of 1x1; at the default quality 0.5 the thumbnail is 1/4 of the full
map resolution on each axis, so for an 800x800 map it is 200x200. -/
theorem thumbnail_dims_quarter :
    (∀ mw : ℕ, ∀ q : ℚ, 0 ≤ q →
      Circle.target_width mw q = max 1 ⌊((mw / 2 : ℕ) : ℚ) * q⌋ ∧
      Square.target_width mw q = max 1 ⌊((mw / 2 : ℕ) : ℚ) * q⌋) ∧
    (∀ mh : ℕ, ∀ q : ℚ, 0 ≤ q →
      Circle.target_height mh q = max 1 ⌊((mh / 2 : ℕ) : ℚ) * q⌋ ∧
      Square.target_height mh q = max 1 ⌊((mh / 2 : ℕ) : ℚ) * q⌋) ∧
    (∀ m : ℕ, ∀ q : ℚ,
      1 ≤ Circle.target_width m q ∧ 1 ≤ Square.target_width m q ∧
      1 ≤ Circle.target_height m q ∧ 1 ≤ Square.target_height m q) ∧
    Circle.target_width 800 0.5 = 200 ∧ Circle.target_height 800 0.5 = 200 ∧
    Square.target_width 800 0.5 = 200 ∧ Square.target_height 800 0.5 = 200 ∧
    4 * Circle.target_width 800 0.5 = 800 ∧ 4 * Square.target_width 800 0.5 = 800 := by
  have hfloor : ∀ m : ℕ, ∀ q : ℚ, 0 ≤ q →
      pyIntQ (((m / 2 : ℕ) : ℚ) * q) = ⌊((m / 2 : ℕ) : ℚ) * q⌋ := fun m q hq =>
    (pyIntQ_nonneg (mul_nonneg (Nat.cast_nonneg _) hq)).1
  refine ⟨?_, ?_, ?_, ?_, ?_, ?_, ?_, ?_, ?_⟩
  · intro mw q hq
    rw [Circle.target_width, Square.target_width, hfloor mw q hq]
    exact ⟨rfl, rfl⟩
  · intro mh q hq
    rw [Circle.target_height, Square.target_height, hfloor mh q hq]
    exact ⟨rfl, rfl⟩
  · intro m q
    exact ⟨le_max_left _ _, le_max_left _ _, le_max_left _ _, le_max_left _ _⟩
  · norm_num [Circle.target_width, pyIntQ]
  · norm_num [Circle.target_height, pyIntQ]
  · norm_num [Square.target_width, pyIntQ]
  · norm_num [Square.target_height, pyIntQ]
  · norm_num [Circle.target_width, pyIntQ]
  · norm_num [Square.target_width, pyIntQ]

/-- C9: in the thumbnail renderer of either topology, every pixel's RGB
color is determined from its distance to the boundary: land within 2
distance-units of the boundary is (204,203,158); land with magnitude < 10
is (190, 220 - 2*magnitude, 138); land with magnitude >= 10 is, with
adj = 2*magnitude, (180 + adj/4 with integer division, 200 - adj, 130);
water within 3 distance-units of the boundary is (100,143,255); and farther
water has magnitude = the clamp of int((distance - boundary)/20) to [0,10]
and, with adj = 1 - magnitude, channels (max(0,70+adj), max(0,132+adj),
max(0,180+adj)). -/
theorem thumbnail_color_bands :
    (∀ tw th x y : ℕ,
      (Circle.thumb_distance tw th x y ≤ Circle.thumb_radius tw th →
        Circle.thumb_radius tw th - 2 < Circle.thumb_distance tw th x y →
        Circle.thumbColor tw th x y = (204, 203, 158)) ∧
      (Circle.thumb_distance tw th x y ≤ Circle.thumb_radius tw th →
        Circle.thumb_distance tw th x y ≤ Circle.thumb_radius tw th - 2 →
        Circle.thumb_land_magnitude tw th x y < 10 →
        Circle.thumbColor tw th x y =
          (190, 220 - 2 * Circle.thumb_land_magnitude tw th x y, 138)) ∧
      (Circle.thumb_distance tw th x y ≤ Circle.thumb_radius tw th →
        Circle.thumb_distance tw th x y ≤ Circle.thumb_radius tw th - 2 →
        10 ≤ Circle.thumb_land_magnitude tw th x y →
        Circle.thumbColor tw th x y =
          (180 + 2 * Circle.thumb_land_magnitude tw th x y / 4,
           200 - 2 * Circle.thumb_land_magnitude tw th x y, 130)) ∧
      (Circle.thumb_radius tw th < Circle.thumb_distance tw th x y →
        Circle.thumb_distance tw th x y < Circle.thumb_radius tw th + 3 →
        Circle.thumbColor tw th x y = (100, 143, 255)) ∧
      (Circle.thumb_radius tw th < Circle.thumb_distance tw th x y →
        Circle.thumb_radius tw th + 3 ≤ Circle.thumb_distance tw th x y →
        0 ≤ Circle.thumb_ocean_magnitude tw th x y ∧
        Circle.thumb_ocean_magnitude tw th x y ≤ 10 ∧
        Circle.thumbColor tw th x y =
          (max 0 (70 + (1 - Circle.thumb_ocean_magnitude tw th x y)),
           max 0 (132 + (1 - Circle.thumb_ocean_magnitude tw th x y)),
           max 0 (180 + (1 - Circle.thumb_ocean_magnitude tw th x y))))) ∧
    (∀ tw th x y : ℕ,
      (Square.thumb_chebyshev tw th x y ≤ Square.thumb_land_half_size tw th →
        Square.thumb_land_half_size tw th - 2 < Square.thumb_chebyshev tw th x y →
        Square.thumbColor tw th x y = (204, 203, 158)) ∧
      (Square.thumb_chebyshev tw th x y ≤ Square.thumb_land_half_size tw th →
        Square.thumb_chebyshev tw th x y ≤ Square.thumb_land_half_size tw th - 2 →
        Square.thumb_land_magnitude tw th x y < 10 →
        Square.thumbColor tw th x y =
          (190, 220 - 2 * Square.thumb_land_magnitude tw th x y, 138)) ∧
      (Square.thumb_chebyshev tw th x y ≤ Square.thumb_land_half_size tw th →
        Square.thumb_chebyshev tw th x y ≤ Square.thumb_land_half_size tw th - 2 →
        10 ≤ Square.thumb_land_magnitude tw th x y →
        Square.thumbColor tw th x y =
          (180 + 2 * Square.thumb_land_magnitude tw th x y / 4,
           200 - 2 * Square.thumb_land_magnitude tw th x y, 130)) ∧
      (Square.thumb_land_half_size tw th < Square.thumb_chebyshev tw th x y →
        Square.thumb_chebyshev tw th x y < Square.thumb_land_half_size tw th + 3 →
        Square.thumbColor tw th x y = (100, 143, 255)) ∧
      (Square.thumb_land_half_size tw th < Square.thumb_chebyshev tw th x y →
        Square.thumb_land_half_size tw th + 3 ≤ Square.thumb_chebyshev tw th x y →
        0 ≤ Square.thumb_ocean_magnitude tw th x y ∧
        Square.thumb_ocean_magnitude tw th x y ≤ 10 ∧
        Square.thumbColor tw th x y =
          (max 0 (70 + (1 - Square.thumb_ocean_magnitude tw th x y)),
           max 0 (132 + (1 - Square.thumb_ocean_magnitude tw th x y)),
           max 0 (180 + (1 - Square.thumb_ocean_magnitude tw th x y))))) := by
  have e : ∀ z : ℤ, 11 - z - 10 = 1 - z := fun z => by ring
  constructor
  · intro tw th x y
    refine ⟨?_, ?_, ?_, ?_, ?_⟩
    · intro h1 h2
      rw [Circle.thumbColor, if_pos h1, if_pos h2]
    · intro h1 h2 h3
      rw [Circle.thumbColor, if_pos h1, if_neg (not_lt.mpr h2), if_pos h3]
    · intro h1 h2 h3
      rw [Circle.thumbColor, if_pos h1, if_neg (not_lt.mpr h2),
        if_neg (not_lt.mpr h3)]
    · intro h1 h2
      rw [Circle.thumbColor, if_neg (not_le.mpr h1), if_pos h2]
    · intro h1 h2
      have hv0 : (0:ℝ) ≤ (Circle.thumb_distance tw th x y -
          Circle.thumb_radius tw th) / 20 := by
        have : (0:ℝ) < 3 := by norm_num
        apply div_nonneg (by linarith) (by norm_num)
      refine ⟨le_min (by norm_num) (pyIntR_nonneg hv0).2, min_le_left _ _, ?_⟩
      rw [Circle.thumbColor, if_neg (not_le.mpr h1), if_neg (not_lt.mpr h2), e]
  · intro tw th x y
    refine ⟨?_, ?_, ?_, ?_, ?_⟩
    · intro h1 h2
      rw [Square.thumbColor, if_pos h1, if_pos h2]
    · intro h1 h2 h3
      rw [Square.thumbColor, if_pos h1, if_neg (not_lt.mpr h2), if_pos h3]
    · intro h1 h2 h3
      rw [Square.thumbColor, if_pos h1, if_neg (not_lt.mpr h2),
        if_neg (not_lt.mpr h3)]
    · intro h1 h2
      rw [Square.thumbColor, if_neg (not_le.mpr h1), if_pos h2]
    · intro h1 h2
      have hv0 : (0:ℚ) ≤ (Square.thumb_chebyshev tw th x y -
          Square.thumb_land_half_size tw th) / 20 := by
        apply div_nonneg (by linarith) (by norm_num)
      refine ⟨le_min (by norm_num) (pyIntQ_nonneg hv0).2, min_le_left _ _, ?_⟩
      rw [Square.thumbColor, if_neg (not_le.mpr h1), if_neg (not_lt.mpr h2), e]
